import Mathlib

/-!
Verification of the bybit-tg-bot repository against its specification.

We shallowly embed the core modules:
* `modules/trade.py` — `normalize_quantity` and `execute_trade` (TradeExecutor),
* `modules/announcements.py` — `check_new_listings` (LaunchpoolAnnouncements),
* `modules/telegram_bot.py` — `handle_message` routing and `check_position_status`.

Python machine floats are modelled by exact rationals; Python's builtin
`round` (banker's rounding, round-half-to-even) is modelled by `rndHalfEven`
and `pyRound`.  Fallible gateway calls are modelled by `PyResult`, whose
`exn` constructor stands for a raised Python exception carrying its message.
Side effects against the exchange are recorded as an explicit call trace.
-/

/-- Python's builtin `round(x)` on a rational: round to the nearest integer,
ties going to the even integer (round-half-to-even, as CPython does). -/
def rndHalfEven (x : ℚ) : ℤ :=
  if x - (⌊x⌋ : ℚ) < 1/2 then ⌊x⌋
  else if 1/2 < x - (⌊x⌋ : ℚ) then ⌊x⌋ + 1
  else if ⌊x⌋ % 2 = 0 then ⌊x⌋ else ⌊x⌋ + 1

/-- Python's `round(x, nd)`: round to `nd` decimal places, half to even. -/
def pyRound (x : ℚ) (nd : ℕ) : ℚ :=
  (rndHalfEven (x * (10 : ℚ) ^ nd) : ℚ) / (10 : ℚ) ^ nd

/-- Instrument lot-size rules as returned by `get_lot_size_rules`
(`modules/trade.py`, lines 71-94): minimum, maximum and step quantity. -/
structure LotRules where
  min_qty : ℚ
  max_qty : ℚ
  qty_step : ℚ
deriving DecidableEq

/-- `TradeExecutor.normalize_quantity` (`modules/trade.py`, lines 96-107):
clamp the quantity into `[min_qty, max_qty]`, then round to the nearest
number of steps with Python `round` and multiply back.  The only failure
mode is Python's `ZeroDivisionError` when `qty_step` is zero; the code
performs no validation of the rules. -/
def normalize_quantity (r : LotRules) (quantity : ℚ) : Except String ℚ :=
  let q := max r.min_qty (min quantity r.max_qty)
  if r.qty_step = 0 then Except.error "ZeroDivisionError"
  else Except.ok ((rndHalfEven (q / r.qty_step) : ℚ) * r.qty_step)

/-- Outcome of a Python call that may raise: a value or a raised exception
carrying its message. -/
inductive PyResult (α : Type) where
  | val (a : α)
  | exn (msg : String)
deriving DecidableEq

/-- The part of the `get_tickers` response that `execute_trade` reads
(`modules/trade.py`, lines 115-123). -/
structure TickerInfo where
  retCode : ℤ
  markPrice : ℚ
deriving DecidableEq

/-- The part of the `place_order` response that `execute_trade` reads
(`modules/trade.py`, lines 172-188). -/
structure OrderResp where
  retCode : ℤ
  retMsg : String
deriving DecidableEq

/-- Behaviour of the exchange REST client (`self.client`) during one
`execute_trade` run: what each outbound call returns.  `PyResult.val none`
models a falsy/malformed response object, `PyResult.exn` a raised
exception. -/
structure Gateway where
  tickers : String → PyResult (Option TickerInfo)
  instruments : String → PyResult (Option LotRules)
  leverageResult : PyResult Unit
  orderResult : PyResult (Option OrderResp)

/-- `TradeExecutor.get_lot_size_rules` (`modules/trade.py`, lines 71-94):
parse the instruments response; on a falsy response or any exception fall
back to the defaults `(1, 10000, 1)`. -/
def get_lot_size_rules (g : Gateway) (symbol : String) : LotRules :=
  match g.instruments symbol with
  | PyResult.val (some r) => r
  | _ => ⟨1, 10000, 1⟩

/-- One outbound call to the exchange client, recorded in execution order. -/
inductive GatewayCall where
  | getTickers (symbol : String)
  | getInstrumentsInfo (symbol : String)
  | setLeverage (symbol : String) (leverage : ℤ)
  | placeOrder (symbol : String) (qty stopLoss takeProfit : ℚ) (leverage : ℤ)
deriving DecidableEq

/-- The dictionary returned by `execute_trade`: `{'success': True, 'data': …}`
or `{'success': False, 'error': …}`. -/
inductive TradeResult where
  | success (entry_price mnt_quantity usdt_value stop_loss take_profit : ℚ)
  | failure (error : String)
deriving DecidableEq

/-- The traded quantity computed in `execute_trade` (`modules/trade.py`,
lines 126-136): convert the USDT amount at the mark price, round to the
nearest lot step, round that to 3 decimals, then clamp into
`[min_qty, max_qty]`. -/
def execute_mnt_qty (rules : LotRules) (quantity markPrice : ℚ) : ℚ :=
  max rules.min_qty
    (min (pyRound ((rndHalfEven ((quantity / markPrice) / rules.qty_step) : ℚ) * rules.qty_step) 3)
      rules.max_qty)

/-- `TradeExecutor.execute_trade` (`modules/trade.py`, lines 109-192),
returning the result dictionary together with the trace of exchange calls
performed.  The symbol is hardcoded to `"MNTUSDT"` (line 112) for the price
fetch, the leverage call and the order; only `get_lot_size_rules` uses the
configured `self.symbol` (`cfgSymbol`).  The body is wrapped in
`try/except`, so every raised exception becomes a failure dictionary; the
`set_leverage` call (lines 144-152) has its own `try/except` whose failure
is only logged.  Division by a zero mark price or zero step is Python's
`ZeroDivisionError`, caught by the outer handler. -/
def execute_trade (g : Gateway) (cfgSymbol : String) (quantity stop_loss take_profit : ℚ)
    (leverage : ℤ) : TradeResult × List GatewayCall :=
  match g.tickers "MNTUSDT" with
  | PyResult.exn e => (TradeResult.failure e, [GatewayCall.getTickers "MNTUSDT"])
  | PyResult.val none =>
      (TradeResult.failure "Could not get market price", [GatewayCall.getTickers "MNTUSDT"])
  | PyResult.val (some t) =>
    if t.retCode ≠ 0 then
      (TradeResult.failure "Could not get market price", [GatewayCall.getTickers "MNTUSDT"])
    else
      let rules := get_lot_size_rules g cfgSymbol
      let trace1 : List GatewayCall :=
        [GatewayCall.getTickers "MNTUSDT", GatewayCall.getInstrumentsInfo cfgSymbol]
      if t.markPrice = 0 then (TradeResult.failure "ZeroDivisionError", trace1)
      else if rules.qty_step = 0 then (TradeResult.failure "ZeroDivisionError", trace1)
      else
        let mnt_quantity := execute_mnt_qty rules quantity t.markPrice
        let actual_usdt := pyRound (mnt_quantity * t.markPrice) 2
        let slPrice := pyRound (t.markPrice * (1 - stop_loss / 100)) 4
        let tpPrice := pyRound (t.markPrice * (1 + take_profit / 100)) 4
        let trace2 := trace1 ++ [GatewayCall.setLeverage "MNTUSDT" leverage,
          GatewayCall.placeOrder "MNTUSDT" mnt_quantity slPrice tpPrice leverage]
        match g.orderResult with
        | PyResult.exn e => (TradeResult.failure e, trace2)
        | PyResult.val none => (TradeResult.failure "AttributeError", trace2)
        | PyResult.val (some resp) =>
          if resp.retCode = 0 then
            (TradeResult.success t.markPrice mnt_quantity actual_usdt slPrice tpPrice, trace2)
          else (TradeResult.failure resp.retMsg, trace2)

/-- One item of the announcements feed; `dateTimestamp` is in milliseconds,
as delivered by the Bybit announcements API. -/
structure FeedItem where
  dateTimestamp : ℤ
  title : String
deriving DecidableEq

/-- The announcements HTTP response: a raised exception, or status code,
API return code and the (newest-first) item list. -/
inductive FeedResp where
  | exn (msg : String)
  | resp (statusCode : ℤ) (retCode : ℤ) (items : List FeedItem)
deriving DecidableEq

/-- `LaunchpoolAnnouncements.check_new_listings` (`modules/announcements.py`,
lines 14-64) as a function of the current watermark `last_check_time`
(seconds), the feed response, and the wall clock `now` at the moment of the
check: returns the emitted item (if any) and the new watermark.  Note that
on an emission the code sets `self.last_check_time = datetime.now()`
(line 57), i.e. the watermark becomes the poll time, not the item's
timestamp. -/
def check_new_listings (last_check_time : ℚ) (feed : FeedResp) (now : ℚ) :
    Option FeedItem × ℚ :=
  match feed with
  | FeedResp.exn _ => (none, last_check_time)
  | FeedResp.resp sc rc items =>
    if sc ≠ 200 then (none, last_check_time)
    else if rc ≠ 0 then (none, last_check_time)
    else
      match items with
      | [] => (none, last_check_time)
      | latest :: _ =>
        if last_check_time < (latest.dateTimestamp : ℚ) / 1000 then (some latest, now)
        else (none, last_check_time)

-- Conversation state constants (`modules/telegram_bot.py`, lines 25-32).

def SELECTING_ACTION : ℤ := 0

def SET_MIN_VALUE : ℤ := 1

def SET_QUANTITY : ℤ := 2

def SET_SL : ℤ := 3

def SET_TP : ℤ := 4

def SET_LEVERAGE : ℤ := 5

def WAITING_PASSWORD : ℤ := 6

def SETTING_PASSWORD : ℤ := 7

/-- `ConversationHandler.END` of python-telegram-bot, returned by the
(unused) `check_chat` wrapper for foreign chats. -/
def CONVERSATION_END : ℤ := -1

/-- An incoming text together with the outcome of Python's `float(text)` and
`int(text)` conversions (`none` models a raised `ValueError`). -/
structure MsgText where
  raw : String
  asFloat : Option ℚ
  asInt : Option ℤ
deriving DecidableEq

/-- The per-user `context.user_data` fields that `handle_message` reads and
writes: `'state'` and `'authenticated'`. -/
structure UserState where
  state : Option ℤ
  authenticated : Bool
deriving DecidableEq

/-- The bot-global `self.settings` dictionary (`modules/telegram_bot.py`,
lines 41-56) holding the live risk parameters. -/
structure BotSettings where
  min_value : ℚ
  quantity : ℚ
  stop_loss : ℚ
  take_profit : ℚ
  leverage : ℤ
deriving DecidableEq

/-- The observable outcome of one `handle_message` run: the handler's return
value, the updated user data, the updated settings, and the stored
password after any `save_user_settings`. -/
structure HandleOutcome where
  ret : ℤ
  user : UserState
  settings : BotSettings
  password : Option String
deriving DecidableEq

/-- `TelegramBot.handle_message` (`modules/telegram_bot.py`, lines 248-384).
Order of checks as in the source: the `SETTING_PASSWORD` state first, then
the authentication gate comparing the raw text against the stored password,
then the `SET_QUANTITY` / `SET_SL` / `SET_TP` / `SET_LEVERAGE` editing
branches; any other state falls through to `return SELECTING_ACTION`.
`context.user_data['state']` is never written by this handler, so the
session stays in its current state in every branch. -/
def handle_message (stored : Option String) (text : MsgText) (u : UserState)
    (s : BotSettings) : HandleOutcome :=
  if u.state = some SETTING_PASSWORD then
    if text.raw.length < 4 then ⟨SETTING_PASSWORD, u, s, stored⟩
    else ⟨SELECTING_ACTION, ⟨u.state, true⟩, s, some text.raw⟩
  else if u.authenticated = false then
    if stored = some text.raw then ⟨SELECTING_ACTION, ⟨u.state, true⟩, s, stored⟩
    else ⟨WAITING_PASSWORD, u, s, stored⟩
  else if u.state = some SET_QUANTITY then
    match text.asFloat with
    | some v =>
      if v ≤ 0 then ⟨SET_QUANTITY, u, s, stored⟩
      else ⟨SELECTING_ACTION, u, ⟨s.min_value, v, s.stop_loss, s.take_profit, s.leverage⟩, stored⟩
    | none => ⟨SET_QUANTITY, u, s, stored⟩
  else if u.state = some SET_SL then
    match text.asFloat with
    | some v =>
      if 0 < v ∧ v ≤ 100 then
        ⟨SELECTING_ACTION, u, ⟨s.min_value, s.quantity, v, s.take_profit, s.leverage⟩, stored⟩
      else ⟨SET_SL, u, s, stored⟩
    | none => ⟨SET_SL, u, s, stored⟩
  else if u.state = some SET_TP then
    match text.asFloat with
    | some v =>
      if 0 < v ∧ v ≤ 100 then
        ⟨SELECTING_ACTION, u, ⟨s.min_value, s.quantity, s.stop_loss, v, s.leverage⟩, stored⟩
      else ⟨SET_TP, u, s, stored⟩
    | none => ⟨SET_TP, u, s, stored⟩
  else if u.state = some SET_LEVERAGE then
    match text.asInt with
    | some l =>
      if 1 ≤ l ∧ l ≤ 100 then
        ⟨SELECTING_ACTION, u, ⟨s.min_value, s.quantity, s.stop_loss, s.take_profit, l⟩, stored⟩
      else ⟨SET_LEVERAGE, u, s, stored⟩
    | none => ⟨SET_LEVERAGE, u, s, stored⟩
  else ⟨SELECTING_ACTION, u, s, stored⟩

/-- The `check_chat` wrapper (`modules/telegram_bot.py`, lines 145-165): it
would reject messages whose chat id differs from the configured one.  It is
defined in the source but never applied to any registered handler. -/
def check_chat_gate (cfg_chat msg_chat : String) (stored : Option String) (text : MsgText)
    (u : UserState) (s : BotSettings) : HandleOutcome :=
  if msg_chat ≠ cfg_chat then ⟨CONVERSATION_END, u, s, stored⟩
  else handle_message stored text u s

/-- The text-message pipeline as actually registered in `TelegramBot.__init__`
(`modules/telegram_bot.py`, line 70): `MessageHandler(filters.TEXT & ~filters.COMMAND,
self.handle_message)` — `handle_message` without the `check_chat` wrapper, so
the incoming message's chat id is never inspected. -/
def process_text_message (_cfg_chat _msg_chat : String) (stored : Option String)
    (text : MsgText) (u : UserState) (s : BotSettings) : HandleOutcome :=
  handle_message stored text u s

/-- The position snapshot fields read by `check_position_status`
(`modules/telegram_bot.py`, lines 595-598). -/
structure Position where
  entryPrice : ℚ
  markPrice : ℚ
  size : ℚ
  unrealisedPnl : ℚ
deriving DecidableEq

/-- Observable outcome of one `check_position_status` run. -/
inductive MonitorOutcome where
  | noPosition
  | status (pnlPct : ℚ) (nearSL nearTP : Bool)
  | errorCaught (msg : String)
deriving DecidableEq

/-- `TelegramBot.check_position_status` (`modules/telegram_bot.py`, lines
587-665) restricted to a single check: `pos` is what `get_position_info`
returned.  The PnL percentage `unrealisedPnl / (entryPrice * size) * 100`
(line 601) is computed without any zero guard; when `entryPrice * size = 0`
Python raises `ZeroDivisionError`, which the blanket `except` at line 664
catches — no status message is sent and the error is only logged. -/
def check_position_status (slPct tpPct : ℚ) (pos : Option Position) : MonitorOutcome :=
  match pos with
  | none => MonitorOutcome.noPosition
  | some p =>
    if p.entryPrice * p.size = 0 then MonitorOutcome.errorCaught "ZeroDivisionError"
    else
      let pnl := p.unrealisedPnl / (p.entryPrice * p.size) * 100
      let slPrice := p.entryPrice * (1 - slPct / 100)
      let tpPrice := p.entryPrice * (1 + tpPct / 100)
      if p.markPrice ≤ slPrice * (101/100) then MonitorOutcome.status pnl true false
      else if p.markPrice ≥ tpPrice * (99/100) then MonitorOutcome.status pnl false true
      else MonitorOutcome.status pnl false false

/-- A gateway on which everything succeeds: price 100, default lot rules,
order accepted. -/
def gatewayOk : Gateway :=
  ⟨fun _ => PyResult.val (some ⟨0, 100⟩), fun _ => PyResult.val none,
    PyResult.val (), PyResult.val (some ⟨0, "OK"⟩)⟩

/-- A gateway identical to `gatewayOk` except that the order submission is
rejected by the exchange. -/
def gatewayRejected : Gateway :=
  ⟨fun _ => PyResult.val (some ⟨0, 100⟩), fun _ => PyResult.val none,
    PyResult.val (), PyResult.val (some ⟨10001, "order rejected"⟩)⟩

/-- A gateway identical to `gatewayOk` except that the `set_leverage` call
raises. -/
def gatewayLeverageFails : Gateway :=
  ⟨fun _ => PyResult.val (some ⟨0, 100⟩), fun _ => PyResult.val none,
    PyResult.exn "leverage error", PyResult.val (some ⟨0, "OK"⟩)⟩

/-- A gateway whose ticker call raises a network exception. -/
def gatewayTickersRaise : Gateway :=
  ⟨fun _ => PyResult.exn "ConnectionError", fun _ => PyResult.val none,
    PyResult.val (), PyResult.val (some ⟨0, "OK"⟩)⟩

-- ===================================================================
-- Theorems
-- ===================================================================

-- Basic facts about `rndHalfEven`.

theorem rndHalfEven_intCast (k : ℤ) : rndHalfEven (k : ℚ) = k := by
  unfold rndHalfEven
  simp [Int.floor_intCast]

theorem le_rndHalfEven (x : ℚ) : x - 1/2 ≤ (rndHalfEven x : ℚ) := by
  unfold rndHalfEven
  have hf := Int.floor_le x
  have hf' := Int.lt_floor_add_one x
  split_ifs with h1 h2 h3 <;> first | linarith | (push_cast; linarith)

theorem rndHalfEven_le (x : ℚ) : (rndHalfEven x : ℚ) ≤ x + 1/2 := by
  unfold rndHalfEven
  have hf := Int.floor_le x
  have hf' := Int.lt_floor_add_one x
  split_ifs with h1 h2 h3 <;> first | linarith | (push_cast; linarith)

theorem rndHalfEven_eq_of_lt {k : ℤ} {x : ℚ} (h1 : (k : ℚ) ≤ x) (h2 : x < k + 1/2) :
    rndHalfEven x = k := by
  have hfl : ⌊x⌋ = k := by
    rw [Int.floor_eq_iff]
    constructor
    · exact_mod_cast h1
    · linarith
  unfold rndHalfEven
  rw [hfl]
  have hlt : x - (k : ℚ) < 1/2 := by linarith
  simp only [hlt, if_true]

theorem rndHalfEven_eq_of_gt {k : ℤ} {x : ℚ} (h1 : (k : ℚ) - 1/2 < x) (h2 : x ≤ k) :
    rndHalfEven x = k := by
  rcases eq_or_lt_of_le h2 with heq | hlt
  · rw [heq]; exact rndHalfEven_intCast k
  · have hfl : ⌊x⌋ = k - 1 := by
      rw [Int.floor_eq_iff]
      constructor
      · push_cast; linarith
      · push_cast; linarith
    unfold rndHalfEven
    rw [hfl]
    have hr : ¬ (x - ((k - 1 : ℤ) : ℚ) < 1/2) := by push_cast; push_neg; linarith
    have hr2 : (1:ℚ)/2 < x - ((k - 1 : ℤ) : ℚ) := by push_cast; linarith
    simp only [hr, if_false, hr2, if_true]
    omega

theorem div_lt_div_of_num_lt {a b s : ℚ} (hs : 0 < s) (h : a < b) : a / s < b / s := by
  gcongr

theorem div_le_div_of_num_le {a b s : ℚ} (hs : 0 < s) (h : a ≤ b) : a / s ≤ b / s := by
  gcongr

/-- C3 (amended): for rules with `step > 0` and `min ≤ max`,
`normalize_quantity` succeeds, the result is an integer multiple of the
step and is idempotent, but — because the code clamps *before* rounding —
the result is only guaranteed to lie in the widened window
`[min - step/2, max + step/2]`, not in `[min, max]`. -/
theorem normalize_quantity_props (r : LotRules) (q : ℚ) (hs : 0 < r.qty_step)
    (hmm : r.min_qty ≤ r.max_qty) :
    ∃ y, normalize_quantity r q = Except.ok y ∧
      (∃ k : ℤ, y = (k : ℚ) * r.qty_step) ∧
      r.min_qty - r.qty_step / 2 ≤ y ∧ y ≤ r.max_qty + r.qty_step / 2 ∧
      normalize_quantity r y = Except.ok y := by
  obtain ⟨m, M, s⟩ := r
  simp only at hs hmm ⊢
  have hsne : s ≠ 0 := ne_of_gt hs
  set c : ℚ := max m (min q M) with hc
  set k : ℤ := rndHalfEven (c / s) with hk
  set y : ℚ := (k : ℚ) * s with hy
  have hmc : m ≤ c := le_max_left _ _
  have hcM : c ≤ M := max_le hmm (min_le_right _ _)
  have hb1 : c / s - 1/2 ≤ (k : ℚ) := le_rndHalfEven _
  have hb2 : (k : ℚ) ≤ c / s + 1/2 := rndHalfEven_le _
  have hks : (k : ℚ) = y / s := by rw [hy, mul_div_cancel_right₀ _ hsne]
  have hnorm : normalize_quantity ⟨m, M, s⟩ q = Except.ok y := by
    simp only [normalize_quantity, hsne, if_false, ← hc, ← hk, ← hy]
  have hyl : c - s / 2 ≤ y := by
    have h1 : (c / s - 1/2) * s ≤ (k : ℚ) * s := mul_le_mul_of_nonneg_right hb1 hs.le
    have h2 : (c / s - 1/2) * s = c - s / 2 := by field_simp; ring
    rw [h2] at h1
    exact h1
  have hyu : y ≤ c + s / 2 := by
    have h1 : (k : ℚ) * s ≤ (c / s + 1/2) * s := mul_le_mul_of_nonneg_right hb2 hs.le
    have h2 : (c / s + 1/2) * s = c + s / 2 := by field_simp; ring
    rw [h2] at h1
    exact h1
  have hidem : normalize_quantity ⟨m, M, s⟩ y = Except.ok y := by
    have hsuff : rndHalfEven (max m (min y M) / s) = k := by
      by_cases h1 : y < m
      · have hyM : y ≤ M := le_of_lt (lt_of_lt_of_le h1 hmm)
        rw [min_eq_left hyM, max_eq_left h1.le]
        rcases eq_or_lt_of_le hmc with hcm | hcm
        · rw [hcm]
        · apply rndHalfEven_eq_of_lt
          · rw [hks]
            exact le_of_lt (div_lt_div_of_num_lt hs h1)
          · calc m / s < c / s := div_lt_div_of_num_lt hs hcm
              _ ≤ (k : ℚ) + 1/2 := by linarith
      · push_neg at h1
        by_cases h2 : M < y
        · rw [min_eq_right h2.le, max_eq_right hmm]
          rcases eq_or_lt_of_le hcM with hcM' | hcM'
          · rw [← hcM']
          · apply rndHalfEven_eq_of_gt
            · calc (k : ℚ) - 1/2 ≤ c / s := by linarith
                _ < M / s := div_lt_div_of_num_lt hs hcM'
            · rw [hks]
              exact le_of_lt (div_lt_div_of_num_lt hs h2)
        · push_neg at h2
          rw [min_eq_left h2, max_eq_right h1]
          rw [← hks]
          exact rndHalfEven_intCast k
    simp only [normalize_quantity, hsne, if_false, hsuff, ← hy]
  exact ⟨y, hnorm, ⟨k, rfl⟩, by linarith, by linarith, hidem⟩

/-- C3 counterexample: with rules `min = 4, max = 10, step = 3` (a valid
triple: `step > 0`, `min ≤ max`) and requested quantity `4`, the code clamps
to `4` and then rounds `4/3` to `1` step, returning `3`, which is *below*
`min = 4` — the claimed invariant "the result lies within `[min, max]`"
fails. -/
theorem normalize_quantity_range_counterexample :
    normalize_quantity ⟨4, 10, 3⟩ 4 = Except.ok 3 ∧
    (0 : ℚ) < 3 ∧ (4 : ℚ) ≤ 10 ∧ ¬ ((4 : ℚ) ≤ 3) := by
  norm_num [normalize_quantity, rndHalfEven]

/-- C3 witness: the amended property evaluated at rules `(4, 10, 3)` and
quantity `4`. -/
theorem normalize_quantity_props_witness :
    ∃ y, normalize_quantity ⟨4, 10, 3⟩ 4 = Except.ok y ∧
      (∃ k : ℤ, y = (k : ℚ) * 3) ∧
      (4 : ℚ) - 3 / 2 ≤ y ∧ y ≤ (10 : ℚ) + 3 / 2 ∧
      normalize_quantity ⟨4, 10, 3⟩ y = Except.ok y :=
  normalize_quantity_props ⟨4, 10, 3⟩ 4 (by norm_num) (by norm_num)

/-- C6 (amended): `normalize_quantity` performs no rules validation at all.
For any nonzero step — including negative steps — and any `min`/`max`
relation — including `min > max` — it silently returns a quantity; for a
zero step it fails with Python's untyped `ZeroDivisionError`.  There is no
`InvalidRulesError` anywhere in the code. -/
theorem normalize_quantity_no_validation (r : LotRules) (q : ℚ) :
    (r.qty_step ≠ 0 → ∃ y, normalize_quantity r q = Except.ok y) ∧
    (r.qty_step = 0 → normalize_quantity r q = Except.error "ZeroDivisionError") := by
  constructor
  · intro h
    refine ⟨(rndHalfEven (max r.min_qty (min q r.max_qty) / r.qty_step) : ℚ) * r.qty_step, ?_⟩
    simp [normalize_quantity, h]
  · intro h
    simp [normalize_quantity, h]

/-- C6 counterexample: with `min = 5 > max = 2` the code silently returns
`5` (no error of any kind), and with the negative step `-2` it silently
returns `4` — the claim that invalid rules produce an `InvalidRulesError`
fails. -/
theorem normalize_quantity_no_validation_counterexample :
    normalize_quantity ⟨5, 2, 1⟩ 3 = Except.ok 5 ∧
    normalize_quantity ⟨1, 10, -2⟩ 5 = Except.ok 4 := by
  norm_num [normalize_quantity, rndHalfEven]

/-- C6 witness: the amended property evaluated at a negative step and at a
zero step. -/
theorem normalize_quantity_no_validation_witness :
    (∃ y, normalize_quantity ⟨1, 10, -2⟩ 5 = Except.ok y) ∧
    normalize_quantity ⟨7, 3, 0⟩ 1 = Except.error "ZeroDivisionError" :=
  ⟨(normalize_quantity_no_validation ⟨1, 10, -2⟩ 5).1 (by norm_num),
    (normalize_quantity_no_validation ⟨7, 3, 0⟩ 1).2 rfl⟩

/-- C2 (amended): for a successful feed response whose most recent item has
timestamp `ts` (seconds): if `ts ≤ T0` nothing is emitted and the watermark
stays `T0`; if `ts > T0` exactly that item is emitted, but the watermark is
advanced to the *poll's wall-clock time* `now` (`datetime.now()`,
`modules/announcements.py` line 57), not to `ts`; consequently an
immediately repeated poll over the same feed emits nothing only under the
proviso `ts ≤ now`. -/
theorem check_new_listings_watermark (T0 now now2 : ℚ) (latest : FeedItem)
    (rest : List FeedItem) :
    ((latest.dateTimestamp : ℚ) / 1000 ≤ T0 →
      check_new_listings T0 (FeedResp.resp 200 0 (latest :: rest)) now = (none, T0)) ∧
    (T0 < (latest.dateTimestamp : ℚ) / 1000 →
      check_new_listings T0 (FeedResp.resp 200 0 (latest :: rest)) now = (some latest, now) ∧
      ((latest.dateTimestamp : ℚ) / 1000 ≤ now →
        check_new_listings now (FeedResp.resp 200 0 (latest :: rest)) now2 = (none, now))) := by
  refine ⟨fun h => ?_, fun h => ⟨?_, fun h2 => ?_⟩⟩
  · simp [check_new_listings, not_lt.mpr h]
  · simp [check_new_listings, h]
  · simp [check_new_listings, not_lt.mpr h2]

/-- C2 counterexample: watermark `T0 = 0`, feed item with timestamp 2000 s,
poll at wall-clock time 1000 s.  The item is emitted but the watermark
advances to `1000` (the poll time), not to the item's timestamp `2000`, and
an immediately repeated poll over the very same feed emits the same item
again — refuting both "advances the watermark to that item's timestamp" and
"an immediately repeated poll emits nothing". -/
theorem check_new_listings_counterexample :
    check_new_listings 0 (FeedResp.resp 200 0 [⟨2000000, "X"⟩]) 1000
      = (some ⟨2000000, "X"⟩, 1000) ∧
    (1000 : ℚ) ≠ 2000 ∧
    (check_new_listings 1000 (FeedResp.resp 200 0 [⟨2000000, "X"⟩]) 1000).1
      = some ⟨2000000, "X"⟩ := by
  norm_num [check_new_listings]

/-- C2 witness: the amended property evaluated at `T0 = 0`, an item with
timestamp 2 s and polls at times 5 and 9. -/
theorem check_new_listings_watermark_witness :
    check_new_listings 0 (FeedResp.resp 200 0 [⟨2000, "L"⟩]) 5 = (some ⟨2000, "L"⟩, 5) ∧
    check_new_listings 5 (FeedResp.resp 200 0 [⟨2000, "L"⟩]) 9 = (none, 5) := by
  have h := (check_new_listings_watermark 0 5 9 ⟨2000, "L"⟩ []).2 (by norm_num)
  exact ⟨h.1, h.2 (by norm_num)⟩

/-- Evaluation of `execute_trade` once the price fetch has succeeded with a
nonzero mark price and a nonzero lot step: the full call trace is the fixed
four-call sequence ending in the order submission, and the result is
determined by the order response alone. -/
theorem execute_trade_eq (g : Gateway) (cfg : String) (q sl tp : ℚ) (lev : ℤ)
    (t : TickerInfo) (ht : g.tickers "MNTUSDT" = PyResult.val (some t))
    (hrc : t.retCode = 0) (hp : ¬ t.markPrice = 0)
    (hs : ¬ (get_lot_size_rules g cfg).qty_step = 0) :
    execute_trade g cfg q sl tp lev =
      ((match g.orderResult with
        | PyResult.exn e => TradeResult.failure e
        | PyResult.val none => TradeResult.failure "AttributeError"
        | PyResult.val (some resp) =>
          if resp.retCode = 0 then
            TradeResult.success t.markPrice
              (execute_mnt_qty (get_lot_size_rules g cfg) q t.markPrice)
              (pyRound (execute_mnt_qty (get_lot_size_rules g cfg) q t.markPrice * t.markPrice) 2)
              (pyRound (t.markPrice * (1 - sl / 100)) 4)
              (pyRound (t.markPrice * (1 + tp / 100)) 4)
          else TradeResult.failure resp.retMsg),
       [GatewayCall.getTickers "MNTUSDT", GatewayCall.getInstrumentsInfo cfg,
        GatewayCall.setLeverage "MNTUSDT" lev,
        GatewayCall.placeOrder "MNTUSDT"
          (execute_mnt_qty (get_lot_size_rules g cfg) q t.markPrice)
          (pyRound (t.markPrice * (1 - sl / 100)) 4)
          (pyRound (t.markPrice * (1 + tp / 100)) 4) lev]) := by
  simp only [execute_trade, ht, hrc, hp, hs, ne_eq, not_true_eq_false, if_false,
    ite_false, not_false_eq_true, ite_true, if_true, List.cons_append, List.nil_append]
  rcases g.orderResult with o | e
  · rcases o with _ | resp
    · rfl
    · by_cases h : resp.retCode = 0 <;> simp [h]
  · rfl

/-- C1 (amended): once the price fetch succeeds, the call trace is exactly
`getTickers, getInstrumentsInfo, setLeverage, placeOrder` — the leverage-set
call is performed *before* the order submission and therefore happens even
when the submission is rejected, and no gateway call follows the
submission.  If the submission returns a non-success status the result is
`{success:false, error: <gateway message>}`; if it succeeds the result is
`{success:true}` regardless of the leverage call's behaviour (its failures
are swallowed by an inner `try/except`).  Stop-loss/take-profit are
parameters of the submission itself, not a separate post-fill call. -/
theorem execute_trade_hard_soft_asymmetry (g : Gateway) (cfg : String) (q sl tp : ℚ)
    (lev : ℤ) (t : TickerInfo) (resp : OrderResp)
    (ht : g.tickers "MNTUSDT" = PyResult.val (some t)) (hrc : t.retCode = 0)
    (hp : ¬ t.markPrice = 0) (hs : ¬ (get_lot_size_rules g cfg).qty_step = 0)
    (ho : g.orderResult = PyResult.val (some resp)) :
    (¬ resp.retCode = 0 →
      (execute_trade g cfg q sl tp lev).1 = TradeResult.failure resp.retMsg) ∧
    (execute_trade g cfg q sl tp lev).2 =
      [GatewayCall.getTickers "MNTUSDT", GatewayCall.getInstrumentsInfo cfg,
       GatewayCall.setLeverage "MNTUSDT" lev,
       GatewayCall.placeOrder "MNTUSDT"
         (execute_mnt_qty (get_lot_size_rules g cfg) q t.markPrice)
         (pyRound (t.markPrice * (1 - sl / 100)) 4)
         (pyRound (t.markPrice * (1 + tp / 100)) 4) lev] ∧
    (resp.retCode = 0 → ∀ lr : PyResult Unit,
      (execute_trade (Gateway.mk g.tickers g.instruments lr g.orderResult) cfg q sl tp lev).1 =
        TradeResult.success t.markPrice
          (execute_mnt_qty (get_lot_size_rules g cfg) q t.markPrice)
          (pyRound (execute_mnt_qty (get_lot_size_rules g cfg) q t.markPrice * t.markPrice) 2)
          (pyRound (t.markPrice * (1 - sl / 100)) 4)
          (pyRound (t.markPrice * (1 + tp / 100)) 4)) := by
  have h := execute_trade_eq g cfg q sl tp lev t ht hrc hp hs
  refine ⟨fun hne => ?_, ?_, fun h0 lr => ?_⟩
  · rw [h]; simp [ho, hne]
  · rw [h]
  · have h2 := execute_trade_eq (Gateway.mk g.tickers g.instruments lr g.orderResult)
      cfg q sl tp lev t ht hrc hp hs
    rw [h2]
    simp only
    rw [show (Gateway.mk g.tickers g.instruments lr g.orderResult).orderResult
      = g.orderResult from rfl, ho]
    simp [h0]
    exact ⟨rfl, rfl⟩

/-- C1 counterexample: an execution in which the submission is rejected
(`retCode = 10001`) returns the failure dictionary, **but** the trace does
contain a `set_leverage` call — refuting "no leverage-set … gateway calls
are performed in that execution" (the code sets leverage before submitting,
`modules/trade.py` lines 143-152 vs 172). -/
theorem execute_trade_leverage_despite_reject_counterexample :
    (execute_trade gatewayRejected "MNTUSDT" 100 2 4 5).1
      = TradeResult.failure "order rejected" ∧
    GatewayCall.setLeverage "MNTUSDT" 5 ∈ (execute_trade gatewayRejected "MNTUSDT" 100 2 4 5).2 := by
  have h := execute_trade_eq gatewayRejected "MNTUSDT" 100 2 4 5 ⟨0, 100⟩ rfl rfl
    (by norm_num) (by norm_num [get_lot_size_rules, gatewayRejected])
  rw [h]
  constructor
  · simp [gatewayRejected]
  · simp

/-- C1 witness: the amended property instantiated on a rejected-order
gateway. -/
theorem execute_trade_hard_soft_asymmetry_witness :
    (execute_trade gatewayRejected "BTCUSDT" 50 1 3 2).1
      = TradeResult.failure "order rejected" := by
  have h := execute_trade_hard_soft_asymmetry gatewayRejected "BTCUSDT" 50 1 3 2
    ⟨0, 100⟩ ⟨10001, "order rejected"⟩ rfl rfl (by norm_num)
    (by norm_num [get_lot_size_rules, gatewayRejected]) rfl
  exact h.1 (by norm_num)

/-- C8: for a long entry that reaches a successful submission at mark price
`p`, the protective prices placed in the order and returned in the result
are `pyRound (p * (1 - sl/100)) 4` and `pyRound (p * (1 + tp/100)) 4`; in
particular at price 100 with `sl = 2` and `tp = 4` they are exactly 98 and
104. -/
theorem execute_trade_protective_prices (g : Gateway) (cfg : String) (q sl tp : ℚ)
    (lev : ℤ) (t : TickerInfo) (resp : OrderResp)
    (ht : g.tickers "MNTUSDT" = PyResult.val (some t)) (hrc : t.retCode = 0)
    (hp : ¬ t.markPrice = 0) (hs : ¬ (get_lot_size_rules g cfg).qty_step = 0)
    (ho : g.orderResult = PyResult.val (some resp)) (hok : resp.retCode = 0) :
    (execute_trade g cfg q sl tp lev).1 =
      TradeResult.success t.markPrice
        (execute_mnt_qty (get_lot_size_rules g cfg) q t.markPrice)
        (pyRound (execute_mnt_qty (get_lot_size_rules g cfg) q t.markPrice * t.markPrice) 2)
        (pyRound (t.markPrice * (1 - sl / 100)) 4)
        (pyRound (t.markPrice * (1 + tp / 100)) 4) ∧
    GatewayCall.placeOrder "MNTUSDT"
        (execute_mnt_qty (get_lot_size_rules g cfg) q t.markPrice)
        (pyRound (t.markPrice * (1 - sl / 100)) 4)
        (pyRound (t.markPrice * (1 + tp / 100)) 4) lev
      ∈ (execute_trade g cfg q sl tp lev).2 ∧
    pyRound ((100 : ℚ) * (1 - 2 / 100)) 4 = 98 ∧
    pyRound ((100 : ℚ) * (1 + 4 / 100)) 4 = 104 := by
  have h := execute_trade_eq g cfg q sl tp lev t ht hrc hp hs
  rw [h]
  refine ⟨by simp [ho, hok], by simp, ?_, ?_⟩
  · norm_num [pyRound, rndHalfEven]
  · norm_num [pyRound, rndHalfEven]

/-- C8 witness: on `gatewayOk` (price 100, order accepted) with quantity
100 USDT, `sl = 2`, `tp = 4`, the result is
`success 100 1 100 98 104`. -/
theorem execute_trade_protective_prices_witness :
    (execute_trade gatewayOk "BTCUSDT" 100 2 4 3).1
      = TradeResult.success 100 1 100 98 104 := by
  have h := execute_trade_protective_prices gatewayOk "BTCUSDT" 100 2 4 3
    ⟨0, 100⟩ ⟨0, "OK"⟩ rfl rfl (by norm_num)
    (by norm_num [get_lot_size_rules, gatewayOk]) rfl rfl
  rw [h.1]
  norm_num [execute_mnt_qty, get_lot_size_rules, gatewayOk, pyRound, rndHalfEven]

/-- The trace of any `execute_trade` run consists only of the four known
call shapes: the ticker fetch and every exchange-mutating call use the
hardcoded symbol `"MNTUSDT"`; only the instruments lookup uses the
configured symbol. -/
theorem execute_trade_trace_shape (g : Gateway) (cfg : String) (q sl tp : ℚ) (lev : ℤ) :
    (execute_trade g cfg q sl tp lev).2 = [GatewayCall.getTickers "MNTUSDT"] ∨
    (execute_trade g cfg q sl tp lev).2 =
      [GatewayCall.getTickers "MNTUSDT", GatewayCall.getInstrumentsInfo cfg] ∨
    ∃ a b c, (execute_trade g cfg q sl tp lev).2 =
      [GatewayCall.getTickers "MNTUSDT", GatewayCall.getInstrumentsInfo cfg,
       GatewayCall.setLeverage "MNTUSDT" lev,
       GatewayCall.placeOrder "MNTUSDT" a b c lev] := by
  unfold execute_trade
  rcases g.tickers "MNTUSDT" with ot | e
  · rcases ot with _ | t
    · left; rfl
    · by_cases h1 : t.retCode = 0
      · simp only [h1, ne_eq, not_true_eq_false, if_false, ite_false]
        by_cases h2 : t.markPrice = 0
        · simp [h2]
        · by_cases h3 : (get_lot_size_rules g cfg).qty_step = 0
          · simp [h2, h3]
          · simp only [h2, h3, if_false, ite_false]
            rcases g.orderResult with o | e
            · rcases o with _ | resp
              · right; right; exact ⟨_, _, _, rfl⟩
              · by_cases h4 : resp.retCode = 0 <;> simp only [h4, if_true, ite_true, if_false, ite_false] <;>
                  (right; right; exact ⟨_, _, _, rfl⟩)
            · right; right; exact ⟨_, _, _, rfl⟩
      · simp [h1]
  · left; rfl

/-- C9: the configured trading symbol has no effect on which instrument is
traded — in every execution the ticker fetch, the leverage call and the
order submission all target the hardcoded `"MNTUSDT"`, for every configured
symbol `cfg`. -/
theorem execute_trade_symbol_hardcoded (g : Gateway) (cfg : String) (q sl tp : ℚ) (lev : ℤ) :
    (∀ s, GatewayCall.getTickers s ∈ (execute_trade g cfg q sl tp lev).2 → s = "MNTUSDT") ∧
    (∀ s a b c l, GatewayCall.placeOrder s a b c l ∈ (execute_trade g cfg q sl tp lev).2 →
      s = "MNTUSDT") ∧
    (∀ s l, GatewayCall.setLeverage s l ∈ (execute_trade g cfg q sl tp lev).2 →
      s = "MNTUSDT") := by
  rcases execute_trade_trace_shape g cfg q sl tp lev with h | h | ⟨a, b, c, h⟩ <;>
    rw [h] <;>
    refine ⟨?_, ?_, ?_⟩ <;> intro s <;> simp <;> intro hx <;> simp_all

/-- C9 witness: on a configured symbol `"SOLUSDT"` the ticker call in the
trace still targets `"MNTUSDT"`. -/
theorem execute_trade_symbol_hardcoded_witness :
    GatewayCall.getTickers "MNTUSDT" ∈ (execute_trade gatewayOk "SOLUSDT" 20 1 2 1).2 ∧
    "MNTUSDT" = "MNTUSDT" := by
  have hmem : GatewayCall.getTickers "MNTUSDT" ∈ (execute_trade gatewayOk "SOLUSDT" 20 1 2 1).2 := by
    rw [execute_trade_eq gatewayOk "SOLUSDT" 20 1 2 1 ⟨0, 100⟩ rfl rfl (by norm_num)
      (by norm_num [get_lot_size_rules, gatewayOk])]
    simp
  exact ⟨hmem, (execute_trade_symbol_hardcoded gatewayOk "SOLUSDT" 20 1 2 1).1 "MNTUSDT" hmem⟩

/-- C10: `execute_trade` never raises to its caller: its result is always a
`success` or a `failure` dictionary; a raised ticker exception and a raised
order exception are both converted into the failure dictionary carrying the
exception message. -/
theorem execute_trade_never_raises (g : Gateway) (cfg : String) (q sl tp : ℚ) (lev : ℤ) :
    ((∃ p mq u a b, (execute_trade g cfg q sl tp lev).1 = TradeResult.success p mq u a b) ∨
      (∃ m, (execute_trade g cfg q sl tp lev).1 = TradeResult.failure m)) ∧
    (∀ m, g.tickers "MNTUSDT" = PyResult.exn m →
      (execute_trade g cfg q sl tp lev).1 = TradeResult.failure m) ∧
    (∀ m t, g.tickers "MNTUSDT" = PyResult.val (some t) → t.retCode = 0 →
      ¬ t.markPrice = 0 → ¬ (get_lot_size_rules g cfg).qty_step = 0 →
      g.orderResult = PyResult.exn m →
      (execute_trade g cfg q sl tp lev).1 = TradeResult.failure m) := by
  refine ⟨?_, fun m hm => ?_, fun m t ht hrc hp hs ho => ?_⟩
  · rcases h : (execute_trade g cfg q sl tp lev).1 with ⟨p, mq, u, a, b⟩ | ⟨m⟩
    · exact Or.inl ⟨p, mq, u, a, b, rfl⟩
    · exact Or.inr ⟨m, rfl⟩
  · simp [execute_trade, hm]
  · rw [execute_trade_eq g cfg q sl tp lev t ht hrc hp hs]
    simp [ho]

/-- C10 witness: a gateway whose ticker call raises `"ConnectionError"`
yields the failure dictionary with that message. -/
theorem execute_trade_never_raises_witness :
    (execute_trade gatewayTickersRaise "ETHUSDT" 10 2 4 1).1
      = TradeResult.failure "ConnectionError" :=
  (execute_trade_never_raises gatewayTickersRaise "ETHUSDT" 10 2 4 1).2.1 "ConnectionError" rfl

/-- C4: the chat-identity check is never applied.  A text message from a
foreign chat (`"222"` ≠ configured `"111"`) is processed by the registered
pipeline exactly as an authorized one: if its text matches the stored
password the session becomes authenticated (a conversation-state change),
and a follow-up message from the same foreign chat mutates the live
RiskParameters.  The `check_chat` wrapper defined in the source would have
rejected it, but it is not wired to any handler. -/
theorem process_text_message_foreign_chat_bug :
    (process_text_message "111" "222" (some "hunter2") ⟨"hunter2", none, none⟩
        ⟨none, false⟩ ⟨5, 10, 2, 4, 1⟩).user.authenticated = true ∧
    (process_text_message "111" "222" (some "hunter2") ⟨"55", some 55, some 55⟩
        ⟨some SET_SL, true⟩ ⟨5, 10, 2, 4, 1⟩).settings.stop_loss = 55 ∧
    ("222" : String) ≠ "111" ∧
    check_chat_gate "111" "222" (some "hunter2") ⟨"hunter2", none, none⟩
        ⟨none, false⟩ ⟨5, 10, 2, 4, 1⟩ =
      ⟨CONVERSATION_END, ⟨none, false⟩, ⟨5, 10, 2, 4, 1⟩, some "hunter2"⟩ := by
  refine ⟨by decide, ?_, by decide, by decide⟩
  norm_num [process_text_message, handle_message, SETTING_PASSWORD, SET_QUANTITY, SET_SL]

/-- C5: a position snapshot with `size = 0` is *not* treated as "no
position": the monitor evaluates `unrealisedPnl / (entryPrice * size) * 100`
with a zero denominator, raising `ZeroDivisionError`, which the blanket
`except` swallows — the check is aborted instead of returning the
"no position" outcome.  Only an absent snapshot yields `noPosition`. -/
theorem check_position_status_size_zero_bug :
    check_position_status 2 4 (some ⟨100, 100, 0, 5⟩)
      = MonitorOutcome.errorCaught "ZeroDivisionError" ∧
    check_position_status 2 4 (some ⟨100, 100, 0, 5⟩) ≠ MonitorOutcome.noPosition ∧
    check_position_status 2 4 none = MonitorOutcome.noPosition := by
  refine ⟨by norm_num [check_position_status], ?_, by norm_num [check_position_status]⟩
  intro h
  simp [check_position_status] at h

/-- C7 counterexample: in `EDITING(STOP_LOSS)` (and `EDITING(TAKE_PROFIT)`)
the numeric input `100` — which the claim says must be rejected, the
domain being exclusive at both ends — is accepted by the code's
`0 < v <= 100` test and mutates the corresponding RiskParameters field to
100. -/
theorem handle_message_boundary_counterexample :
    (handle_message (some "p") ⟨"100", some 100, some 100⟩ ⟨some SET_SL, true⟩
        ⟨5, 10, 2, 4, 1⟩).settings.stop_loss = 100 ∧
    (handle_message (some "p") ⟨"100", some 100, some 100⟩ ⟨some SET_TP, true⟩
        ⟨5, 10, 2, 4, 1⟩).settings.take_profit = 100 ∧
    ¬ ((100 : ℚ) < 100) := by
  norm_num [handle_message, SET_SL, SET_TP, SET_QUANTITY, SETTING_PASSWORD]

/-- C7 (amended): for an authenticated session in `EDITING(STOP_LOSS)` or
`EDITING(TAKE_PROFIT)`, exactly the numeric inputs `v` with `0 < v ≤ 100`
(inclusive at 100) are accepted and mutate the corresponding field; every
other input — non-numeric or outside `(0, 100]` — returns the same editing
state and leaves both the user data and the settings unchanged. -/
theorem handle_message_sl_tp_domain (stored : Option String) (text : MsgText)
    (u : UserState) (s : BotSettings) (hauth : u.authenticated = true) :
    (u.state = some SET_SL →
      (∀ v, text.asFloat = some v → 0 < v → v ≤ 100 →
        handle_message stored text u s =
          ⟨SELECTING_ACTION, u, ⟨s.min_value, s.quantity, v, s.take_profit, s.leverage⟩, stored⟩) ∧
      (∀ v, text.asFloat = some v → ¬ (0 < v ∧ v ≤ 100) →
        handle_message stored text u s = ⟨SET_SL, u, s, stored⟩) ∧
      (text.asFloat = none →
        handle_message stored text u s = ⟨SET_SL, u, s, stored⟩)) ∧
    (u.state = some SET_TP →
      (∀ v, text.asFloat = some v → 0 < v → v ≤ 100 →
        handle_message stored text u s =
          ⟨SELECTING_ACTION, u, ⟨s.min_value, s.quantity, s.stop_loss, v, s.leverage⟩, stored⟩) ∧
      (∀ v, text.asFloat = some v → ¬ (0 < v ∧ v ≤ 100) →
        handle_message stored text u s = ⟨SET_TP, u, s, stored⟩) ∧
      (text.asFloat = none →
        handle_message stored text u s = ⟨SET_TP, u, s, stored⟩)) := by
  constructor
  · intro hst
    refine ⟨fun v hv h0 h100 => ?_, fun v hv hbad => ?_, fun hv => ?_⟩ <;>
      simp [handle_message, hst, hauth, hv, SET_SL, SET_TP, SET_QUANTITY,
        SETTING_PASSWORD, SELECTING_ACTION, *]
  · intro hst
    refine ⟨fun v hv h0 h100 => ?_, fun v hv hbad => ?_, fun hv => ?_⟩ <;>
      simp [handle_message, hst, hauth, hv, SET_SL, SET_TP, SET_QUANTITY,
        SETTING_PASSWORD, SELECTING_ACTION, *]

/-- C7 witness: an authenticated session in `EDITING(STOP_LOSS)` accepting
the in-domain input `50`. -/
theorem handle_message_sl_tp_domain_witness :
    handle_message (some "p") ⟨"50", some 50, some 50⟩ ⟨some SET_SL, true⟩ ⟨5, 10, 2, 4, 1⟩ =
      ⟨SELECTING_ACTION, ⟨some SET_SL, true⟩, ⟨5, 10, 50, 4, 1⟩, some "p"⟩ :=
  ((handle_message_sl_tp_domain (some "p") ⟨"50", some 50, some 50⟩ ⟨some SET_SL, true⟩
      ⟨5, 10, 2, 4, 1⟩ rfl).1 rfl).1 50 rfl (by norm_num) (by norm_num)
